import Mathlib

/-!
Verification of the FullOnCrypto Node.js backend (`src/server.js`).

The server is an Express application over a MongoDB document store with three
collections (`users`, `paymentRequests`, `upiIndex`).  We model the store as
explicit lists of documents, each request handler as a pure function from the
store state (plus the parsed request body and the current time) to an HTTP
response and a new store state.  JSON response bodies are modelled by an
explicit JSON value type so that properties about which *fields* a response
carries (e.g. "no password in any user envelope") are meaningful.

MongoDB operation semantics used here:
* `findOne q`            — first document (in natural/insertion order) matching `q`;
* `insertOne d`          — append `d`; the generated `_id` is a fresh counter value;
* `replaceOne q d {upsert:true}` — replace the first match of `q` by `d` in place,
                           or append `d` when there is no match;
* `findOneAndUpdate q u {returnDocument:'after'}` — update the first match of `q`
                           and return the post-update document, `none` if no match.

Fallible store writes in `POST /api/payment-request` are modelled by a fault
oracle saying which awaited write throws; a thrown write performs no change and
control jumps to the handler's `catch` block (HTTP 500).
-/

/-- JSON values, used for response bodies (and for the dynamically-typed
`amount` field of the payment-request body, whose handler checks
`typeof amount !== 'number'`). -/
inductive JVal where
  | jnull : JVal
  | jbool : Bool → JVal
  | jnum  : Int → JVal
  | jstr  : String → JVal
  | jobj  : List (String × JVal) → JVal
  | jarr  : List JVal → JVal

open JVal

/-- An HTTP response: status code and JSON body. -/
structure Response where
  status : Nat
  body   : JVal

/-- JavaScript truthiness of an optional string field (`undefined`/`null`/`""` are falsy). -/
def truthyS : Option String → Bool
  | none => false
  | some s => s ≠ ""

/-- JavaScript truthiness of an optional JSON value. -/
def jTruthy : Option JVal → Bool
  | none => false
  | some jnull => false
  | some (jbool b) => b
  | some (jnum n) => n ≠ 0
  | some (jstr s) => s ≠ ""
  | some (jobj _) => true
  | some (jarr _) => true

/-- `typeof amount === 'number'`. -/
def isJNum : Option JVal → Bool
  | some (jnum _) => true
  | _ => false

/-- Numeric value of the field once it is known to be a number. -/
def jnumVal : Option JVal → Int
  | some (jnum n) => n
  | _ => 0

/-- JavaScript `s || d` for an optional string field. -/
def strOrD (d : String) : Option String → String
  | none => d
  | some s => if s = "" then d else s

/-- JavaScript `n || 0` for an optional numeric field. -/
def intOr0 : Option Int → Int
  | none => 0
  | some n => n

/-- Optional string rendered into JSON (`null` when absent). -/
def jOfOptStr : Option String → JVal
  | none => jnull
  | some s => jstr s

/-- The `{ error: msg }` failure envelope. -/
def errBody (msg : String) : JVal := jobj [("error", jstr msg)]

/-- A document of the `users` collection. -/
structure User where
  uid        : Nat
  username   : String
  password   : String
  email      : String
  ethAddress : Option String
  createdAt  : Nat
  updatedAt  : Option Nat
  deriving DecidableEq, Repr

/-- A document of the `paymentRequests` collection. -/
structure PaymentReq where
  pid               : Nat
  upiId             : String
  amount            : Int
  payeeName         : String
  note              : String
  contractRequestId : Option String
  walletAddress     : String
  daiAmount         : Int
  ethFee            : Int
  requesterId       : String
  status            : String
  createdAt         : Nat
  deriving DecidableEq, Repr

/-- A document of the `upiIndex` collection. -/
structure UpiIndexEntry where
  contractRequestId : String
  upiId             : String
  payeeName         : String
  note              : String
  createdAt         : Nat
  deriving DecidableEq, Repr

/-- The document store: the three collections plus the generated-id counter. -/
structure DB where
  users           : List User
  paymentRequests : List PaymentReq
  upiIndex        : List UpiIndexEntry
  nextId          : Nat
  deriving Repr

/-- The empty store. -/
def DB.empty : DB := ⟨[], [], [], 0⟩

/-- `replaceOne q d {upsert:true}`: replace the first element satisfying `p`
by `doc` in place, or append `doc` when no element matches. -/
def replaceOne (p : α → Bool) (doc : α) : List α → List α
  | [] => [doc]
  | x :: xs => if p x then doc :: xs else x :: replaceOne p doc xs

/-- `findOneAndUpdate q u {returnDocument:'after'}`: update the first element
satisfying `p` with `f` and return the post-update element together with the
updated list; `none` and the unchanged list when nothing matches. -/
def findOneAndUpdate (p : α → Bool) (f : α → α) : List α → Option α × List α
  | [] => (none, [])
  | x :: xs =>
    if p x then (some (f x), f x :: xs)
    else
      let r := findOneAndUpdate p f xs
      (r.1, x :: r.2)

/-- Parsed body of `POST /api/payment-request` (destructured fields; `none`
means the field is absent from the JSON body). -/
structure PaymentRequestBody where
  upiId             : Option String
  amount            : Option JVal
  payeeName         : Option String
  note              : Option String
  contractRequestId : Option String
  walletAddress     : Option String
  daiAmount         : Option Int
  ethFee            : Option Int

/-- Which awaited store write inside `POST /api/payment-request` throws. -/
structure FaultSpec where
  primaryInsertFails : Bool
  indexWriteFails    : Bool

/-- The fault-free schedule. -/
def noFaults : FaultSpec := ⟨false, false⟩

/-- The `newPaymentRequest` document built by `POST /api/payment-request`
(`src/server.js:189-201`). -/
def mkPaymentRequest (b : PaymentRequestBody) (pid now : Nat) : PaymentReq :=
  { pid := pid
    upiId := b.upiId.getD ""
    amount := jnumVal b.amount
    payeeName := strOrD "" b.payeeName
    note := strOrD "" b.note
    contractRequestId := if truthyS b.contractRequestId then b.contractRequestId else none
    walletAddress := strOrD "" b.walletAddress
    daiAmount := intOr0 b.daiAmount
    ethFee := intOr0 b.ethFee
    requesterId := strOrD "anonymous" b.walletAddress
    status := "pending"
    createdAt := now }

/-- The `upiIndexDoc` secondary-index document (`src/server.js:207-213`). -/
def mkUpiIndexDoc (b : PaymentRequestBody) (now : Nat) : UpiIndexEntry :=
  { contractRequestId := b.contractRequestId.getD ""
    upiId := b.upiId.getD ""
    payeeName := strOrD "" b.payeeName
    note := strOrD "" b.note
    createdAt := now }

/-- The `paymentRequest` success envelope of `POST /api/payment-request`
(`src/server.js:224-240`). -/
def prSuccessBody (p : PaymentReq) : JVal :=
  jobj [("message", jstr "Payment request created successfully"),
        ("paymentRequest", jobj
          [("id", jstr (toString p.pid)),
           ("upiId", jstr p.upiId),
           ("amount", jnum p.amount),
           ("payeeName", jstr p.payeeName),
           ("note", jstr p.note),
           ("contractRequestId", jOfOptStr p.contractRequestId),
           ("walletAddress", jstr p.walletAddress),
           ("daiAmount", jnum p.daiAmount),
           ("ethFee", jnum p.ethFee),
           ("requesterId", jstr p.requesterId),
           ("status", jstr p.status),
           ("createdAt", jnum p.createdAt)])]

/-- Handler of `POST /api/payment-request` (`src/server.js:167-248`), with a
fault oracle for the two awaited writes.  A throwing write changes nothing and
the handler's `catch` returns the 500 envelope. -/
def paymentRequest (db : DB) (b : PaymentRequestBody) (now : Nat) (f : FaultSpec) :
    Response × DB :=
  if !truthyS b.upiId || !jTruthy b.amount then
    (⟨400, errBody "UPI ID and amount are required"⟩, db)
  else if !isJNum b.amount || jnumVal b.amount ≤ 0 then
    (⟨400, errBody "Amount must be a positive number"⟩, db)
  else if f.primaryInsertFails then
    (⟨500, errBody "Internal server error"⟩, db)
  else
    let newPR := mkPaymentRequest b db.nextId now
    let db1 : DB := { db with
      paymentRequests := db.paymentRequests ++ [newPR]
      nextId := db.nextId + 1 }
    if truthyS b.contractRequestId then
      if f.indexWriteFails then
        (⟨500, errBody "Internal server error"⟩, db1)
      else
        (⟨201, prSuccessBody newPR⟩,
         { db1 with upiIndex :=
             (replaceOne (fun e => e.contractRequestId == b.contractRequestId.getD "")
               (mkUpiIndexDoc b now) db1.upiIndex) })
    else
      (⟨201, prSuccessBody newPR⟩, db1)

/-- Success envelope of `GET /api/upi-id/contract/:contractRequestId`
(`src/server.js:275-281`). -/
def upiLookupSuccessBody (cid : String) (e : UpiIndexEntry) : JVal :=
  jobj [("message", jstr "UPI ID retrieved successfully"),
        ("contractRequestId", jstr cid),
        ("upiId", jstr e.upiId),
        ("payeeName", jstr e.payeeName),
        ("note", jstr e.note)]

/-- Handler of `GET /api/upi-id/contract/:contractRequestId`
(`src/server.js:251-289`).  The path parameter is a string; Express only
routes the request when it is non-empty, but the handler re-checks. -/
def getUpiIdByContract (db : DB) (cid : String) : Response :=
  if cid = "" then ⟨400, errBody "Contract request ID is required"⟩
  else
    match db.upiIndex.find? (fun e => e.contractRequestId == cid) with
    | none => ⟨404, errBody "UPI ID not found for the given contract ID"⟩
    | some e => ⟨200, upiLookupSuccessBody cid e⟩

/-- Validation of the payment-request body succeeding (both 400 guards pass). -/
def validPRBody (b : PaymentRequestBody) : Bool :=
  truthyS b.upiId && jTruthy b.amount && isJNum b.amount && decide (0 < jnumVal b.amount)

/-- Fault-free run of a sequence of `POST /api/payment-request` calls, each
with its own body and timestamp. -/
def runPaymentRequests (db : DB) : List (PaymentRequestBody × Nat) → DB
  | [] => db
  | (b, t) :: rest => runPaymentRequests (paymentRequest db b t noFaults).2 rest

/-- First concrete payment-request body used by witnesses. -/
def bW1 : PaymentRequestBody :=
  ⟨some "alice@upi", some (jnum 100), some "Alice", some "rent", some "c1", none, none, none⟩

/-- Second concrete payment-request body used by witnesses. -/
def bW2 : PaymentRequestBody :=
  ⟨some "bob@upi", some (jnum 50), some "Bob", some "food", some "c1",
   some "0xwallet", some 3, some 1⟩

/-- Concrete payment-request body with no `contractRequestId`. -/
def bW3 : PaymentRequestBody :=
  ⟨some "carol@upi", some (jnum 7), none, none, none, none, none, none⟩

/-- One hexadecimal digit, either case (the regex class `[a-fA-F0-9]`). -/
def isHexDigit (c : Char) : Bool :=
  (('0' ≤ c) && (c ≤ '9')) || (('a' ≤ c) && (c ≤ 'f')) || (('A' ≤ c) && (c ≤ 'F'))

/-- The regex `^0x[a-fA-F0-9]{40}$` used by the wallet endpoints: the literal
prefix `0x` followed by exactly 40 hex digits. -/
def isEthAddress (s : String) : Bool :=
  match s.data with
  | '0' :: 'x' :: rest => rest.length == 40 && rest.all isHexDigit
  | _ => false

/-- JavaScript `s.startsWith('0x')`. -/
def startsWith0x (s : String) : Bool :=
  match s.data with
  | '0' :: 'x' :: _ => true
  | _ => false

/-- The syntactic signature check used by the wallet endpoints
(`signature.startsWith('0x') && signature.length === 132`). -/
def validSigFormat (sig : String) : Bool :=
  startsWith0x sig && sig.length == 132

/-- JavaScript `s.toLowerCase()` (ASCII lowering, which is all the hex
addresses handled here need). -/
def lowerStr (s : String) : String := String.mk (s.data.map Char.toLower)

/-- The user document created by `POST /api/signup` (`src/server.js:98-103`). -/
def mkSignupUser (uname pw : String) (uid now : Nat) : User :=
  { uid := uid, username := uname, password := pw, email := ""
    ethAddress := none, createdAt := now, updatedAt := none }

/-- Success envelope of `POST /api/signup` (`src/server.js:108-116`). -/
def signupSuccessBody (u : User) : JVal :=
  jobj [("message", jstr "User created successfully"),
        ("user", jobj [("id", jstr (toString u.uid)), ("username", jstr u.username),
                       ("email", jstr u.email), ("createdAt", jnum u.createdAt)])]

/-- Handler of `POST /api/signup` (`src/server.js:69-124`). -/
def signup (db : DB) (username password : Option String) (now : Nat) : Response × DB :=
  if !truthyS username || !truthyS password then
    (⟨400, errBody "Username and password are required"⟩, db)
  else if (password.getD "").length < 6 then
    (⟨400, errBody "Password must be at least 6 characters long"⟩, db)
  else
    match db.users.find? (fun u => u.username == username.getD "") with
    | some _ => (⟨409, errBody "Username already exists"⟩, db)
    | none =>
      let newUser := mkSignupUser (username.getD "") (password.getD "") db.nextId now
      (⟨201, signupSuccessBody newUser⟩,
       { db with users := db.users ++ [newUser], nextId := db.nextId + 1 })

/-- Success envelope of `POST /api/login` (`src/server.js:148-156`). -/
def loginSuccessBody (u : User) : JVal :=
  jobj [("message", jstr "Login successful"),
        ("user", jobj [("id", jstr (toString u.uid)), ("username", jstr u.username),
                       ("email", jstr u.email), ("createdAt", jnum u.createdAt)])]

/-- Handler of `POST /api/login` (`src/server.js:127-164`); read-only. -/
def login (db : DB) (username password : Option String) : Response :=
  if !truthyS username || !truthyS password then
    ⟨400, errBody "Username and password are required"⟩
  else
    match db.users.find? (fun u => u.username == username.getD "") with
    | none => ⟨401, errBody "Invalid username or password"⟩
    | some u =>
      if u.password ≠ password.getD "" then ⟨401, errBody "Invalid username or password"⟩
      else ⟨200, loginSuccessBody u⟩

/-- The `$set` applied by `POST /api/update-wallet` (`src/server.js:430-435`). -/
def applyWalletUpdate (addr : String) (now : Nat) (u : User) : User :=
  { u with ethAddress := some (lowerStr addr), updatedAt := some now }

/-- Success envelope of `POST /api/update-wallet` (`src/server.js:450-459`). -/
def updateWalletSuccessBody (u : User) : JVal :=
  jobj [("message", jstr "Wallet address updated successfully"),
        ("user", jobj [("id", jstr (toString u.uid)), ("username", jstr u.username),
                       ("email", jstr u.email), ("ethAddress", jOfOptStr u.ethAddress),
                       ("createdAt", jnum u.createdAt)])]

/-- Handler of `POST /api/update-wallet` (`src/server.js:383-467`). -/
def updateWallet (db : DB) (ethAddress username : Option String) (now : Nat) :
    Response × DB :=
  if !truthyS ethAddress then (⟨400, errBody "ETH address is required"⟩, db)
  else if !truthyS username then (⟨400, errBody "Username is required"⟩, db)
  else if !isEthAddress (ethAddress.getD "") then
    (⟨400, errBody "Invalid ETH address format"⟩, db)
  else
    match db.users.find? (fun u =>
        u.ethAddress == some (lowerStr (ethAddress.getD "")) && u.username != username.getD "") with
    | some w =>
      (⟨409, errBody ("This address " ++ ethAddress.getD "" ++
          " is already registered to user: " ++ w.username)⟩, db)
    | none =>
      let r := findOneAndUpdate (fun u => u.username == username.getD "")
        (applyWalletUpdate (ethAddress.getD "") now) db.users
      match r.1 with
      | none => (⟨404, errBody ("User not found with username: " ++ username.getD "")⟩, db)
      | some u => (⟨200, updateWalletSuccessBody u⟩, { db with users := r.2 })

/-- Success envelope of `POST /api/login-wallet` (`src/server.js:526-535`). -/
def loginWalletSuccessBody (u : User) : JVal :=
  jobj [("message", jstr "Wallet login successful"),
        ("user", jobj [("id", jstr (toString u.uid)), ("username", jstr u.username),
                       ("email", jstr u.email), ("ethAddress", jOfOptStr u.ethAddress),
                       ("createdAt", jnum u.createdAt)])]

/-- Handler of `POST /api/login-wallet` (`src/server.js:481-543`); read-only.
The only use made of the signature is the syntactic shape check
`signature.startsWith('0x') && signature.length === 132`. -/
def loginWallet (db : DB) (ethAddress signature : Option String) : Response :=
  if !truthyS ethAddress || !truthyS signature then
    ⟨400, errBody "ETH address and signature are required"⟩
  else if !isEthAddress (ethAddress.getD "") then
    ⟨400, errBody "Invalid ETH address format"⟩
  else
    match db.users.find? (fun u => u.ethAddress == some (lowerStr (ethAddress.getD ""))) with
    | none => ⟨404, errBody "User not found. Please register first."⟩
    | some u =>
      if !validSigFormat (signature.getD "") then ⟨401, errBody "Invalid signature format"⟩
      else ⟨200, loginWalletSuccessBody u⟩

/-- The user document created by `POST /api/register-wallet`
(`src/server.js:597-603`). -/
def mkWalletUser (uname addr : String) (uid now : Nat) : User :=
  { uid := uid, username := uname, password := "", email := ""
    ethAddress := some (lowerStr addr), createdAt := now, updatedAt := none }

/-- Success envelope of `POST /api/register-wallet` (`src/server.js:608-617`). -/
def registerWalletSuccessBody (u : User) : JVal :=
  jobj [("message", jstr "Wallet registration successful"),
        ("user", jobj [("id", jstr (toString u.uid)), ("username", jstr u.username),
                       ("email", jstr u.email), ("ethAddress", jOfOptStr u.ethAddress),
                       ("createdAt", jnum u.createdAt)])]

/-- Handler of `POST /api/register-wallet` (`src/server.js:546-625`). -/
def registerWallet (db : DB) (ethAddress signature username : Option String) (now : Nat) :
    Response × DB :=
  if !truthyS ethAddress || !truthyS signature || !truthyS username then
    (⟨400, errBody "ETH address, signature, and username are required"⟩, db)
  else if !isEthAddress (ethAddress.getD "") then
    (⟨400, errBody "Invalid ETH address format"⟩, db)
  else if (username.getD "").length < 3 then
    (⟨400, errBody "Username must be at least 3 characters long"⟩, db)
  else
    match db.users.find? (fun u => u.username == username.getD "") with
    | some _ => (⟨409, errBody "Username already exists"⟩, db)
    | none =>
      match db.users.find? (fun u => u.ethAddress == some (lowerStr (ethAddress.getD ""))) with
      | some w =>
        (⟨409, errBody ("This address " ++ ethAddress.getD "" ++
            " is already registered to user: " ++ w.username)⟩, db)
      | none =>
        if !validSigFormat (signature.getD "") then
          (⟨401, errBody "Invalid signature format"⟩, db)
        else
          let newUser := mkWalletUser (username.getD "") (ethAddress.getD "") db.nextId now
          (⟨201, registerWalletSuccessBody newUser⟩,
           { db with users := db.users ++ [newUser], nextId := db.nextId + 1 })

/-- Descending creation-time order used by `GET /api/payment-requests`
(`.sort({createdAt: -1})`). -/
def createdAtGe (a b : PaymentReq) : Prop := b.createdAt ≤ a.createdAt

instance : DecidableRel createdAtGe := fun a b => Nat.decLe b.createdAt a.createdAt

instance : IsTotal PaymentReq createdAtGe :=
  ⟨fun a b => Nat.le_total b.createdAt a.createdAt⟩

instance : IsTrans PaymentReq createdAtGe :=
  ⟨fun _ _ _ hab hbc => Nat.le_trans hbc hab⟩

/-- The document list produced by `GET /api/payment-requests`: filter on
status `pending`, then sort by `createdAt` descending (`src/server.js:352-355`). -/
def pendingSorted (db : DB) : List PaymentReq :=
  List.insertionSort createdAtGe (db.paymentRequests.filter (fun r => r.status == "pending"))

/-- One formatted item of the `GET /api/payment-requests` response
(`src/server.js:358-367`). -/
def listItemBody (r : PaymentReq) : JVal :=
  jobj [("id", jstr (toString r.pid)), ("upiId", jstr r.upiId), ("amount", jnum r.amount),
        ("payeeName", jstr r.payeeName), ("note", jstr r.note),
        ("requesterId", jstr r.requesterId), ("status", jstr r.status),
        ("createdAt", jnum r.createdAt)]

/-- Handler of `GET /api/payment-requests` (`src/server.js:346-380`); read-only. -/
def getPaymentRequests (db : DB) : Response :=
  ⟨200, jobj [("message", jstr "Payment requests retrieved successfully"),
              ("paymentRequests", jarr ((pendingSorted db).map listItemBody))]⟩

/-- Lookup of a key in a JSON object's field list. -/
def jLookup (k : String) : List (String × JVal) → Option JVal
  | [] => none
  | (k2, v) :: rest => if k2 = k then some v else jLookup k rest

/-- The keys of a JSON object (empty for non-objects). -/
def objKeys : JVal → List String
  | jobj fs => fs.map Prod.fst
  | _ => []

/-- The keys of the `user` object inside a response body (empty when the body
carries no `user` object). -/
def userKeys (body : JVal) : List String :=
  match body with
  | jobj fs =>
    match jLookup "user" fs with
    | some o => objKeys o
    | none => []
  | _ => []

/-- Concrete mixed-case 40-hex-digit address. -/
def addrW : String := "0xAbCdEf0123456789abcdef0123456789ABCDEF01"

/-- Concrete wallet user holding `addrW` in lowercased form. -/
def userW : User := ⟨7, "walletuser", "", "", some (lowerStr addrW), 3, none⟩

/-- Store containing just `userW`. -/
def dbUW : DB := ⟨[userW], [], [], 8⟩

/-- A well-formed 132-character signature string. -/
def sigA : String := "0x" ++ String.mk (List.replicate 130 'a')

/-- A different well-formed 132-character signature string. -/
def sigB : String := "0x" ++ String.mk (List.replicate 130 'b')

theorem replaceOne_find?_self (p : α → Bool) (doc : α) (h : p doc = true) :
    ∀ l : List α, (replaceOne p doc l).find? p = some doc := by
  intro l
  induction l with
  | nil => simp [replaceOne, h]
  | cons x xs ih =>
    by_cases hx : p x = true
    · simp [replaceOne, hx, h]
    · have hx' : p x = false := by simp [hx]
      simp only [replaceOne]
      rw [if_neg (by simp [hx'])]
      simp only [List.find?, hx']
      exact ih

theorem replaceOne_countP_eq_one (p : α → Bool) (doc : α) (h : p doc = true) :
    ∀ l : List α, l.countP p ≤ 1 → (replaceOne p doc l).countP p = 1 := by
  intro l
  induction l with
  | nil => simp [replaceOne, List.countP_cons, h]
  | cons x xs ih =>
    intro hle
    by_cases hx : p x = true
    · have hxs : xs.countP p = 0 := by
        rw [List.countP_cons, hx, if_pos rfl] at hle
        omega
      simp only [replaceOne]
      rw [if_pos hx]
      simp [List.countP_cons, h, hxs]
    · have hx' : p x = false := by simp [hx]
      have hxs : xs.countP p ≤ 1 := by
        rw [List.countP_cons, hx', if_neg (by simp)] at hle
        omega
      simp only [replaceOne]
      rw [if_neg (by simp [hx'])]
      simp [List.countP_cons, hx', ih hxs]

/-- State and response of one fault-free `POST /api/payment-request` call whose
body passes validation and carries a truthy `contractRequestId`. -/
theorem paymentRequest_ok_truthy (db : DB) (b : PaymentRequestBody) (now : Nat)
    (hv : validPRBody b = true) (hc : truthyS b.contractRequestId = true) :
    paymentRequest db b now noFaults =
      (⟨201, prSuccessBody (mkPaymentRequest b db.nextId now)⟩,
       { users := db.users
         paymentRequests := db.paymentRequests ++ [mkPaymentRequest b db.nextId now]
         upiIndex := replaceOne (fun e => e.contractRequestId == b.contractRequestId.getD "")
             (mkUpiIndexDoc b now) db.upiIndex
         nextId := db.nextId + 1 }) := by
  simp only [validPRBody, Bool.and_eq_true, decide_eq_true_eq] at hv
  obtain ⟨⟨⟨h1, h2⟩, h3⟩, h4⟩ := hv
  have h4' : ¬ jnumVal b.amount ≤ 0 := by omega
  simp [paymentRequest, h1, h2, h3, h4', hc, noFaults]

/-- State and response of one fault-free `POST /api/payment-request` call whose
body passes validation and carries a falsy `contractRequestId`. -/
theorem paymentRequest_ok_falsy (db : DB) (b : PaymentRequestBody) (now : Nat)
    (hv : validPRBody b = true) (hc : truthyS b.contractRequestId = false) :
    paymentRequest db b now noFaults =
      (⟨201, prSuccessBody (mkPaymentRequest b db.nextId now)⟩,
       { users := db.users
         paymentRequests := db.paymentRequests ++ [mkPaymentRequest b db.nextId now]
         upiIndex := db.upiIndex
         nextId := db.nextId + 1 }) := by
  simp only [validPRBody, Bool.and_eq_true, decide_eq_true_eq] at hv
  obtain ⟨⟨⟨h1, h2⟩, h3⟩, h4⟩ := hv
  have h4' : ¬ jnumVal b.amount ≤ 0 := by omega
  simp [paymentRequest, h1, h2, h3, h4', hc, noFaults]

/-- After any nonempty fault-free sequence of valid payment-request calls all
carrying the same non-empty `contractRequestId`, the `upiIndex` collection
holds exactly one entry for that id, namely the document of the last call. -/
theorem run_upiIndex_spec (cid : String) (hcid : cid ≠ "") :
    ∀ (calls : List (PaymentRequestBody × Nat)) (cl : PaymentRequestBody × Nat) (db : DB),
      calls.getLast? = some cl →
      (∀ c ∈ calls, validPRBody c.1 = true ∧ c.1.contractRequestId = some cid) →
      db.upiIndex.countP (fun e => e.contractRequestId == cid) ≤ 1 →
      (runPaymentRequests db calls).upiIndex.countP (fun e => e.contractRequestId == cid) = 1 ∧
      (runPaymentRequests db calls).upiIndex.find? (fun e => e.contractRequestId == cid)
        = some (mkUpiIndexDoc cl.1 cl.2) := by
  intro calls
  induction calls with
  | nil => intro cl db hlast _ _; simp at hlast
  | cons c rest ih =>
    obtain ⟨b, t⟩ := c
    intro cl db hlast hall h0
    obtain ⟨hv, hc⟩ := hall (b, t) (List.mem_cons_self _ _)
    have hv' : validPRBody b = true := hv
    have hc' : b.contractRequestId = some cid := hc
    have htr : truthyS b.contractRequestId = true := by simp [truthyS, hc', hcid]
    have hstep := paymentRequest_ok_truthy db b t hv' htr
    have hkey : (fun e : UpiIndexEntry => e.contractRequestId == b.contractRequestId.getD "")
        = (fun e : UpiIndexEntry => e.contractRequestId == cid) := by
      funext e; rw [hc']; rfl
    have hdoc : (fun e : UpiIndexEntry => e.contractRequestId == cid) (mkUpiIndexDoc b t)
        = true := by
      simp [mkUpiIndexDoc, hc']
    cases rest with
    | nil =>
      have hcl : cl = (b, t) := by simpa using hlast.symm
      subst hcl
      simp only [runPaymentRequests]
      rw [hstep]
      dsimp only
      rw [hkey]
      exact ⟨replaceOne_countP_eq_one (fun e : UpiIndexEntry => e.contractRequestId == cid)
               (mkUpiIndexDoc b t) hdoc db.upiIndex h0,
             replaceOne_find?_self (fun e : UpiIndexEntry => e.contractRequestId == cid)
               (mkUpiIndexDoc b t) hdoc db.upiIndex⟩
    | cons d rest' =>
      have hlast' : (d :: rest').getLast? = some cl := by
        rw [← List.getLast?_cons_cons]
        exact hlast
      have hall' : ∀ c ∈ d :: rest', validPRBody c.1 = true ∧ c.1.contractRequestId = some cid :=
        fun c hcmem => hall c (List.mem_cons_of_mem _ hcmem)
      simp only [runPaymentRequests]
      rw [hstep]
      refine ih cl _ hlast' hall' ?_
      dsimp only
      rw [hkey]
      rw [replaceOne_countP_eq_one (fun e : UpiIndexEntry => e.contractRequestId == cid)
            (mkUpiIndexDoc b t) hdoc db.upiIndex h0]

/-- C1: for every sequence of successful `POST /api/payment-request` calls
carrying the same non-empty `contractRequestId`, the `upiIndex` store holds at
most one entry for that id; `GET /api/upi-id/contract/:id` then returns the
`upiId`, `payeeName` and `note` of the most recent call only, the later call
having fully replaced (not merged) the earlier entry. -/
theorem C1_upi_index_replace_upsert
    (db : DB) (cid : String) (calls : List (PaymentRequestBody × Nat))
    (cl : PaymentRequestBody × Nat)
    (hcid : cid ≠ "") (hlast : calls.getLast? = some cl)
    (hall : ∀ c ∈ calls, validPRBody c.1 = true ∧ c.1.contractRequestId = some cid)
    (h0 : db.upiIndex.countP (fun e => e.contractRequestId == cid) ≤ 1) :
    (runPaymentRequests db calls).upiIndex.countP (fun e => e.contractRequestId == cid) ≤ 1 ∧
    (runPaymentRequests db calls).upiIndex.find? (fun e => e.contractRequestId == cid)
      = some (mkUpiIndexDoc cl.1 cl.2) ∧
    getUpiIdByContract (runPaymentRequests db calls) cid
      = ⟨200, upiLookupSuccessBody cid (mkUpiIndexDoc cl.1 cl.2)⟩ := by
  obtain ⟨hcount, hfind⟩ := run_upiIndex_spec cid hcid calls cl db hlast hall h0
  refine ⟨le_of_eq hcount, hfind, ?_⟩
  simp [getUpiIdByContract, hcid, hfind]

theorem C1_upi_index_replace_upsert_witness :
    (runPaymentRequests DB.empty [(bW1, 5), (bW2, 9)]).upiIndex.countP
        (fun e => e.contractRequestId == "c1") ≤ 1 ∧
    (runPaymentRequests DB.empty [(bW1, 5), (bW2, 9)]).upiIndex.find?
        (fun e => e.contractRequestId == "c1") = some (mkUpiIndexDoc bW2 9) ∧
    getUpiIdByContract (runPaymentRequests DB.empty [(bW1, 5), (bW2, 9)]) "c1"
      = ⟨200, upiLookupSuccessBody "c1" (mkUpiIndexDoc bW2 9)⟩ := by
  refine C1_upi_index_replace_upsert DB.empty "c1" [(bW1, 5), (bW2, 9)] (bW2, 9)
    (by decide) rfl ?_ (by simp [DB.empty])
  intro c hc
  simp only [List.mem_cons, List.mem_singleton] at hc
  rcases hc with h | h | h
  · subst h; exact ⟨rfl, rfl⟩
  · subst h; exact ⟨rfl, rfl⟩
  · simp at h

/-- C2: a `POST /api/payment-request` call writes a `upiIndex` entry if and
only if the body carried a truthy `contractRequestId`; with an absent or falsy
id no entry is written yet the request still succeeds with 201, and a
subsequent `GET /api/upi-id/contract/:id` for any identifier not previously
indexed returns 404. -/
theorem C2_index_written_iff_truthy_cid
    (db : DB) (b : PaymentRequestBody) (now : Nat) (hv : validPRBody b = true) :
    (paymentRequest db b now noFaults).1.status = 201 ∧
    (truthyS b.contractRequestId = true →
      (paymentRequest db b now noFaults).2.upiIndex.find?
          (fun e => e.contractRequestId == b.contractRequestId.getD "")
        = some (mkUpiIndexDoc b now)) ∧
    (truthyS b.contractRequestId = false →
      (paymentRequest db b now noFaults).2.upiIndex = db.upiIndex ∧
      ∀ cid : String, cid ≠ "" →
        db.upiIndex.find? (fun e => e.contractRequestId == cid) = none →
        getUpiIdByContract (paymentRequest db b now noFaults).2 cid
          = ⟨404, errBody "UPI ID not found for the given contract ID"⟩) := by
  by_cases hc : truthyS b.contractRequestId = true
  · have hstep := paymentRequest_ok_truthy db b now hv hc
    rw [hstep]
    refine ⟨rfl, ?_, ?_⟩
    · intro _
      dsimp only
      have hdoc : (fun e : UpiIndexEntry =>
          e.contractRequestId == b.contractRequestId.getD "") (mkUpiIndexDoc b now) = true := by
        simp [mkUpiIndexDoc]
      exact replaceOne_find?_self (fun e : UpiIndexEntry =>
          e.contractRequestId == b.contractRequestId.getD "")
        (mkUpiIndexDoc b now) hdoc db.upiIndex
    · intro hfalse
      rw [hc] at hfalse
      cases hfalse
  · have hc' : truthyS b.contractRequestId = false := by simp [hc]
    have hstep := paymentRequest_ok_falsy db b now hv hc'
    rw [hstep]
    refine ⟨rfl, ?_, ?_⟩
    · intro htrue
      rw [hc'] at htrue
      cases htrue
    · intro _
      refine ⟨rfl, ?_⟩
      intro cid hcid hnone
      dsimp only
      simp [getUpiIdByContract, hcid, hnone]

theorem C2_index_written_iff_truthy_cid_witness :
    (paymentRequest DB.empty bW3 4 noFaults).1.status = 201 ∧
    (truthyS bW3.contractRequestId = true →
      (paymentRequest DB.empty bW3 4 noFaults).2.upiIndex.find?
          (fun e => e.contractRequestId == bW3.contractRequestId.getD "")
        = some (mkUpiIndexDoc bW3 4)) ∧
    (truthyS bW3.contractRequestId = false →
      (paymentRequest DB.empty bW3 4 noFaults).2.upiIndex = DB.empty.upiIndex ∧
      ∀ cid : String, cid ≠ "" →
        DB.empty.upiIndex.find? (fun e => e.contractRequestId == cid) = none →
        getUpiIdByContract (paymentRequest DB.empty bW3 4 noFaults).2 cid
          = ⟨404, errBody "UPI ID not found for the given contract ID"⟩) :=
  C2_index_written_iff_truthy_cid DB.empty bW3 4 rfl

/-- C3: in `POST /api/payment-request` the index write happens only after the
primary insert succeeds — a failed primary insert leaves the whole store
untouched and yields 500 — and when the primary insert succeeds but the index
write then fails, the handler returns the 500 envelope rather than 201 while
the already-inserted payment request remains in the store with no rollback. -/
theorem C3_index_write_only_after_primary
    (db : DB) (b : PaymentRequestBody) (now : Nat) (hv : validPRBody b = true) :
    (∀ fi : Bool, paymentRequest db b now ⟨true, fi⟩
        = (⟨500, errBody "Internal server error"⟩, db)) ∧
    (truthyS b.contractRequestId = true →
      (paymentRequest db b now ⟨false, true⟩).1 = ⟨500, errBody "Internal server error"⟩ ∧
      (paymentRequest db b now ⟨false, true⟩).1.status ≠ 201 ∧
      (paymentRequest db b now ⟨false, true⟩).2.paymentRequests
        = db.paymentRequests ++ [mkPaymentRequest b db.nextId now] ∧
      (paymentRequest db b now ⟨false, true⟩).2.upiIndex = db.upiIndex) := by
  simp only [validPRBody, Bool.and_eq_true, decide_eq_true_eq] at hv
  obtain ⟨⟨⟨h1, h2⟩, h3⟩, h4⟩ := hv
  have h4' : ¬ jnumVal b.amount ≤ 0 := by omega
  constructor
  · intro fi
    simp [paymentRequest, h1, h2, h3, h4']
  · intro hc
    refine ⟨?_, ?_, ?_, ?_⟩ <;> simp [paymentRequest, h1, h2, h3, h4', hc]

theorem C3_index_write_only_after_primary_witness :
    (∀ fi : Bool, paymentRequest DB.empty bW1 5 ⟨true, fi⟩
        = (⟨500, errBody "Internal server error"⟩, DB.empty)) ∧
    (truthyS bW1.contractRequestId = true →
      (paymentRequest DB.empty bW1 5 ⟨false, true⟩).1 = ⟨500, errBody "Internal server error"⟩ ∧
      (paymentRequest DB.empty bW1 5 ⟨false, true⟩).1.status ≠ 201 ∧
      (paymentRequest DB.empty bW1 5 ⟨false, true⟩).2.paymentRequests
        = DB.empty.paymentRequests ++ [mkPaymentRequest bW1 DB.empty.nextId 5] ∧
      (paymentRequest DB.empty bW1 5 ⟨false, true⟩).2.upiIndex = DB.empty.upiIndex) :=
  C3_index_write_only_after_primary DB.empty bW1 5 rfl

theorem find?_append_of_none (p : α → Bool) (l1 l2 : List α) (h : l1.find? p = none) :
    (l1 ++ l2).find? p = l2.find? p := by
  induction l1 with
  | nil => rfl
  | cons x xs ih =>
    by_cases hx : p x = true
    · rw [List.find?_cons_of_pos _ hx] at h
      cases h
    · rw [List.find?_cons_of_neg _ (by simp [hx])] at h
      rw [List.cons_append, List.find?_cons_of_neg _ (by simp [hx])]
      exact ih h

theorem findOneAndUpdate_fst (p : α → Bool) (f : α → α) :
    ∀ l : List α, (findOneAndUpdate p f l).1 = (l.find? p).map f := by
  intro l
  induction l with
  | nil => rfl
  | cons x xs ih =>
    by_cases hx : p x = true
    · simp [findOneAndUpdate, hx, List.find?_cons_of_pos _ hx]
    · have hx' : p x = false := by simp [hx]
      rw [List.find?_cons_of_neg _ (by simp [hx'])]
      simp [findOneAndUpdate, hx', ih]

theorem findOneAndUpdate_append (p : α → Bool) (f : α → α) (v : α) (hv : p v = true) :
    ∀ l1 l2 : List α, (∀ w ∈ l1, p w = false) →
      findOneAndUpdate p f (l1 ++ v :: l2) = (some (f v), l1 ++ f v :: l2) := by
  intro l1
  induction l1 with
  | nil => intro l2 _; simp [findOneAndUpdate, hv]
  | cons x xs ih =>
    intro l2 hall
    have hx := hall x (List.mem_cons_self _ _)
    simp [findOneAndUpdate, hx, ih l2 (fun w hw => hall w (List.mem_cons_of_mem _ hw))]

/-- C6: `GET /api/payment-requests` returns exactly the stored documents whose
status is `pending` (any other status is excluded), ordered by `createdAt`
descending (newest first). -/
theorem C6_pending_only_newest_first (db : DB) :
    getPaymentRequests db
      = ⟨200, jobj [("message", jstr "Payment requests retrieved successfully"),
                    ("paymentRequests", jarr ((pendingSorted db).map listItemBody))]⟩ ∧
    List.Perm (pendingSorted db) (db.paymentRequests.filter (fun r => r.status == "pending")) ∧
    (∀ r ∈ pendingSorted db, r.status = "pending") ∧
    (∀ r ∈ db.paymentRequests, r.status = "pending" → r ∈ pendingSorted db) ∧
    List.Sorted createdAtGe (pendingSorted db) := by
  refine ⟨rfl, List.perm_insertionSort _ _, ?_, ?_, List.sorted_insertionSort _ _⟩
  · intro r hr
    have hmem : r ∈ db.paymentRequests.filter (fun q => q.status == "pending") := by
      simpa [pendingSorted] using hr
    have := (List.mem_filter.mp hmem).2
    simpa using this
  · intro r hr hp
    have : r ∈ db.paymentRequests.filter (fun q => q.status == "pending") :=
      List.mem_filter.mpr ⟨hr, by simp [hp]⟩
    simpa [pendingSorted] using this

theorem isEthAddress_ne_empty {s : String} (h : isEthAddress s = true) : s ≠ "" :=
  fun he => absurd (he ▸ h) (by decide)

theorem validSigFormat_ne_empty {s : String} (h : validSigFormat s = true) : s ≠ "" :=
  fun he => absurd (he ▸ h) (by decide)

/-- C4 (amended): the wallet-login path applies no cryptographic verification —
for a registered wallet address the outcome depends on the signature only
through its syntactic shape: any two signatures that start with `0x` and have
length 132 yield the same successful 200 response, and any *non-empty*
signature failing that shape check yields 401 (an absent or empty signature is
caught by the presence check and yields 400 instead). -/
theorem C4_login_wallet_no_crypto_verification
    (db : DB) (addr : String) (u : User)
    (ha : isEthAddress addr = true)
    (hu : db.users.find? (fun w => w.ethAddress == some (lowerStr addr)) = some u) :
    (∀ sig1 sig2 : String, validSigFormat sig1 = true → validSigFormat sig2 = true →
      loginWallet db (some addr) (some sig1) = loginWallet db (some addr) (some sig2) ∧
      (loginWallet db (some addr) (some sig1)).status = 200) ∧
    (∀ sig : String, sig ≠ "" → validSigFormat sig = false →
      (loginWallet db (some addr) (some sig)).status = 401) := by
  have hane : addr ≠ "" := isEthAddress_ne_empty ha
  constructor
  · intro sig1 sig2 h1 h2
    have hs1 : sig1 ≠ "" := validSigFormat_ne_empty h1
    have hs2 : sig2 ≠ "" := validSigFormat_ne_empty h2
    constructor
    · simp [loginWallet, truthyS, hane, hs1, hs2, ha, hu, h1, h2]
    · simp [loginWallet, truthyS, hane, hs1, ha, hu, h1]
  · intro sig hs hbad
    simp [loginWallet, truthyS, hane, hs, ha, hu, hbad]

theorem C4_login_wallet_no_crypto_verification_counterexample :
    validSigFormat "" = false ∧
    (loginWallet dbUW (some addrW) (some "")).status = 400 ∧
    ¬ (loginWallet dbUW (some addrW) (some "")).status = 401 := by
  refine ⟨by decide, by decide, by decide⟩

set_option maxRecDepth 8000 in
theorem C4_login_wallet_no_crypto_verification_witness :
    loginWallet dbUW (some addrW) (some sigA) = loginWallet dbUW (some addrW) (some sigB) ∧
    (loginWallet dbUW (some addrW) (some sigA)).status = 200 ∧
    (loginWallet dbUW (some addrW) (some "0xdead")).status = 401 := by
  have h := C4_login_wallet_no_crypto_verification dbUW addrW userW (by decide) (by decide)
  exact ⟨(h.1 sigA sigB (by decide) (by decide)).1,
         (h.1 sigA sigB (by decide) (by decide)).2,
         h.2 "0xdead" (by decide) (by decide)⟩

/-- Successful `POST /api/update-wallet`: no conflicting holder of the target
address and a user with the given username exists. -/
theorem updateWallet_success
    (db : DB) (addr uname : String) (now : Nat) (v : User)
    (ha : isEthAddress addr = true) (hun : uname ≠ "")
    (hconf : db.users.find?
        (fun w => w.ethAddress == some (lowerStr addr) && w.username != uname) = none)
    (hfind : db.users.find? (fun u => u.username == uname) = some v) :
    updateWallet db (some addr) (some uname) now
      = (⟨200, updateWalletSuccessBody (applyWalletUpdate addr now v)⟩,
         { db with users := (findOneAndUpdate (fun u => u.username == uname)
             (applyWalletUpdate addr now) db.users).2 }) := by
  have hane : addr ≠ "" := isEthAddress_ne_empty ha
  simp [updateWallet, truthyS, hane, hun, ha, hconf, findOneAndUpdate_fst, hfind]

/-- C5: `POST /api/update-wallet`, given a well-formed address and a username,
returns 409 when some other user (different username) already holds the
lowercased target address; otherwise it returns 404 when no user with the
username exists (the update matches nothing), and 200 with the post-update
user document when one does. -/
theorem C5_update_wallet_outcomes
    (db : DB) (addr uname : String) (now : Nat)
    (ha : isEthAddress addr = true) (hun : uname ≠ "") :
    (∀ w : User,
      db.users.find? (fun v => v.ethAddress == some (lowerStr addr) && v.username != uname)
        = some w →
      updateWallet db (some addr) (some uname) now
        = (⟨409, errBody ("This address " ++ addr ++ " is already registered to user: "
            ++ w.username)⟩, db)) ∧
    (db.users.find? (fun v => v.ethAddress == some (lowerStr addr) && v.username != uname)
        = none →
      (db.users.find? (fun v => v.username == uname) = none →
        updateWallet db (some addr) (some uname) now
          = (⟨404, errBody ("User not found with username: " ++ uname)⟩, db)) ∧
      (∀ v : User, db.users.find? (fun u => u.username == uname) = some v →
        updateWallet db (some addr) (some uname) now
          = (⟨200, updateWalletSuccessBody (applyWalletUpdate addr now v)⟩,
             { db with users := (findOneAndUpdate (fun u => u.username == uname)
                 (applyWalletUpdate addr now) db.users).2 }))) := by
  have hane : addr ≠ "" := isEthAddress_ne_empty ha
  refine ⟨?_, ?_⟩
  · intro w hw
    simp [updateWallet, truthyS, hane, hun, ha, hw]
  · intro hconf
    constructor
    · intro hnone
      simp [updateWallet, truthyS, hane, hun, ha, hconf, findOneAndUpdate_fst, hnone]
    · intro v hv
      simp [updateWallet, truthyS, hane, hun, ha, hconf, findOneAndUpdate_fst, hv]

theorem C5_update_wallet_outcomes_witness :
    (∀ w : User,
      dbUW.users.find? (fun v => v.ethAddress == some (lowerStr addrW) && v.username != "nouser")
        = some w →
      updateWallet dbUW (some addrW) (some "nouser") 11
        = (⟨409, errBody ("This address " ++ addrW ++ " is already registered to user: "
            ++ w.username)⟩, dbUW)) ∧
    (dbUW.users.find? (fun v => v.ethAddress == some (lowerStr addrW) && v.username != "nouser")
        = none →
      (dbUW.users.find? (fun v => v.username == "nouser") = none →
        updateWallet dbUW (some addrW) (some "nouser") 11
          = (⟨404, errBody ("User not found with username: " ++ "nouser")⟩, dbUW)) ∧
      (∀ v : User, dbUW.users.find? (fun u => u.username == "nouser") = some v →
        updateWallet dbUW (some addrW) (some "nouser") 11
          = (⟨200, updateWalletSuccessBody (applyWalletUpdate addrW 11 v)⟩,
             { dbUW with users := (findOneAndUpdate (fun u => u.username == "nouser")
                 (applyWalletUpdate addrW 11) dbUW.users).2 }))) :=
  C5_update_wallet_outcomes dbUW addrW "nouser" 11 (by decide) (by decide)

/-- C9: a successful `POST /api/update-wallet` modifies only the `ethAddress`
and `updatedAt` fields of the first user matching the username; its other
fields, every other user document, the other collections, and the id counter
are unchanged. -/
theorem C9_update_wallet_frame
    (db : DB) (addr uname : String) (now : Nat) (l1 l2 : List User) (v : User)
    (ha : isEthAddress addr = true) (hun : uname ≠ "")
    (hconf : db.users.find?
        (fun w => w.ethAddress == some (lowerStr addr) && w.username != uname) = none)
    (hsplit : db.users = l1 ++ v :: l2)
    (hl1 : ∀ w ∈ l1, (w.username == uname) = false)
    (hv : (v.username == uname) = true) :
    (updateWallet db (some addr) (some uname) now).2.users
      = l1 ++ applyWalletUpdate addr now v :: l2 ∧
    (updateWallet db (some addr) (some uname) now).2.paymentRequests = db.paymentRequests ∧
    (updateWallet db (some addr) (some uname) now).2.upiIndex = db.upiIndex ∧
    (updateWallet db (some addr) (some uname) now).2.nextId = db.nextId ∧
    (applyWalletUpdate addr now v).uid = v.uid ∧
    (applyWalletUpdate addr now v).username = v.username ∧
    (applyWalletUpdate addr now v).password = v.password ∧
    (applyWalletUpdate addr now v).email = v.email ∧
    (applyWalletUpdate addr now v).createdAt = v.createdAt ∧
    (applyWalletUpdate addr now v).ethAddress = some (lowerStr addr) ∧
    (applyWalletUpdate addr now v).updatedAt = some now := by
  have hfoau := findOneAndUpdate_append (fun u => u.username == uname)
    (applyWalletUpdate addr now) v hv l1 l2 hl1
  have hfl1 : l1.find? (fun u => u.username == uname) = none := by
    rw [List.find?_eq_none]
    intro x hx
    simp [hl1 x hx]
  have hpv : (fun u : User => u.username == uname) v = true := hv
  have hfind : db.users.find? (fun u => u.username == uname) = some v := by
    rw [hsplit, find?_append_of_none _ _ _ hfl1, List.find?_cons_of_pos l2 hpv]
  have hsucc := updateWallet_success db addr uname now v ha hun hconf hfind
  have husers : (findOneAndUpdate (fun u => u.username == uname)
      (applyWalletUpdate addr now) db.users).2 = l1 ++ applyWalletUpdate addr now v :: l2 := by
    rw [hsplit, hfoau]
  rw [hsucc]
  exact ⟨husers, rfl, rfl, rfl, rfl, rfl, rfl, rfl, rfl, rfl, rfl⟩

theorem C9_update_wallet_frame_witness :
    (updateWallet dbUW (some addrW) (some "walletuser") 12).2.users
      = [] ++ applyWalletUpdate addrW 12 userW :: [] ∧
    (updateWallet dbUW (some addrW) (some "walletuser") 12).2.paymentRequests
      = dbUW.paymentRequests ∧
    (updateWallet dbUW (some addrW) (some "walletuser") 12).2.upiIndex = dbUW.upiIndex ∧
    (updateWallet dbUW (some addrW) (some "walletuser") 12).2.nextId = dbUW.nextId ∧
    (applyWalletUpdate addrW 12 userW).uid = userW.uid ∧
    (applyWalletUpdate addrW 12 userW).username = userW.username ∧
    (applyWalletUpdate addrW 12 userW).password = userW.password ∧
    (applyWalletUpdate addrW 12 userW).email = userW.email ∧
    (applyWalletUpdate addrW 12 userW).createdAt = userW.createdAt ∧
    (applyWalletUpdate addrW 12 userW).ethAddress = some (lowerStr addrW) ∧
    (applyWalletUpdate addrW 12 userW).updatedAt = some 12 := by
  refine C9_update_wallet_frame dbUW addrW "walletuser" 12 [] [] userW
    (by decide) (by decide) ?_ rfl (by intro w hw; cases hw) (by decide)
  decide

theorem userKeys_errBody (m : String) : userKeys (errBody m) = [] := by
  simp [userKeys, errBody, jLookup]

theorem userKeys_signupSuccessBody (u : User) :
    userKeys (signupSuccessBody u) = ["id", "username", "email", "createdAt"] := by
  simp [userKeys, signupSuccessBody, jLookup, objKeys]

theorem userKeys_loginSuccessBody (u : User) :
    userKeys (loginSuccessBody u) = ["id", "username", "email", "createdAt"] := by
  simp [userKeys, loginSuccessBody, jLookup, objKeys]

theorem userKeys_loginWalletSuccessBody (u : User) :
    userKeys (loginWalletSuccessBody u)
      = ["id", "username", "email", "ethAddress", "createdAt"] := by
  simp [userKeys, loginWalletSuccessBody, jLookup, objKeys]

theorem userKeys_updateWalletSuccessBody (u : User) :
    userKeys (updateWalletSuccessBody u)
      = ["id", "username", "email", "ethAddress", "createdAt"] := by
  simp [userKeys, updateWalletSuccessBody, jLookup, objKeys]

/-- C7: for two sequential `POST /api/signup` calls with the same username and
passwords of length at least 6, the first returns 201 with a user envelope
carrying no password field and appends exactly one user document; the second
returns 409 and leaves the users collection unchanged. -/
theorem C7_signup_duplicate_username
    (db : DB) (uname pw1 pw2 : String) (t1 t2 : Nat)
    (hu : uname ≠ "") (hp1 : 6 ≤ pw1.length) (hp2 : 6 ≤ pw2.length)
    (hfresh : db.users.find? (fun u => u.username == uname) = none) :
    signup db (some uname) (some pw1) t1
      = (⟨201, signupSuccessBody (mkSignupUser uname pw1 db.nextId t1)⟩,
         { db with users := db.users ++ [mkSignupUser uname pw1 db.nextId t1],
                   nextId := db.nextId + 1 }) ∧
    "password" ∉ userKeys (signupSuccessBody (mkSignupUser uname pw1 db.nextId t1)) ∧
    signup (signup db (some uname) (some pw1) t1).2 (some uname) (some pw2) t2
      = (⟨409, errBody "Username already exists"⟩,
         (signup db (some uname) (some pw1) t1).2) := by
  have hpw1 : pw1 ≠ "" := by
    intro h
    rw [h] at hp1
    simp [String.length] at hp1
  have hpw2 : pw2 ≠ "" := by
    intro h
    rw [h] at hp2
    simp [String.length] at hp2
  have hlen1 : ¬ pw1.length < 6 := by omega
  have hlen2 : ¬ pw2.length < 6 := by omega
  have hfirst : signup db (some uname) (some pw1) t1
      = (⟨201, signupSuccessBody (mkSignupUser uname pw1 db.nextId t1)⟩,
         { db with users := db.users ++ [mkSignupUser uname pw1 db.nextId t1],
                   nextId := db.nextId + 1 }) := by
    simp [signup, truthyS, hu, hpw1, hlen1, hfresh]
  have hnewp : (fun u : User => u.username == uname) (mkSignupUser uname pw1 db.nextId t1)
      = true := by
    simp [mkSignupUser]
  have hfind2 : (db.users ++ [mkSignupUser uname pw1 db.nextId t1]).find?
      (fun u => u.username == uname) = some (mkSignupUser uname pw1 db.nextId t1) := by
    rw [find?_append_of_none _ _ _ hfresh]
    simp [List.find?_cons, mkSignupUser]
  refine ⟨hfirst, ?_, ?_⟩
  · rw [userKeys_signupSuccessBody]
    decide
  · rw [hfirst]
    simp [signup, truthyS, hu, hpw2, hlen2, hfind2]

/-- Concrete signup state after one signup, for the C7 witness. -/
theorem C7_signup_duplicate_username_witness :
    signup DB.empty (some "dana") (some "hunter22") 1
      = (⟨201, signupSuccessBody (mkSignupUser "dana" "hunter22" DB.empty.nextId 1)⟩,
         { DB.empty with
             users := DB.empty.users ++ [mkSignupUser "dana" "hunter22" DB.empty.nextId 1],
             nextId := DB.empty.nextId + 1 }) ∧
    "password" ∉ userKeys (signupSuccessBody (mkSignupUser "dana" "hunter22" DB.empty.nextId 1)) ∧
    signup (signup DB.empty (some "dana") (some "hunter22") 1).2 (some "dana") (some "abcdef") 2
      = (⟨409, errBody "Username already exists"⟩,
         (signup DB.empty (some "dana") (some "hunter22") 1).2) :=
  C7_signup_duplicate_username DB.empty "dana" "hunter22" "abcdef" 1 2
    (by decide) (by decide) (by decide) (by decide)

/-- C8: a successful `POST /api/register-wallet` for an address matching the
hex pattern stores the address lowercased, and a subsequent
`POST /api/login-wallet` presenting any pattern-conforming case-variant of the
same address (with a syntactically valid signature) locates and returns that
same user, storage and comparison both using the lowercased form; addresses
not matching the pattern are rejected with 400 on both endpoints. -/
theorem C8_wallet_address_lowercase_roundtrip
    (db : DB) (a1 sig uname : String) (now : Nat)
    (ha1 : isEthAddress a1 = true) (hun : 3 ≤ uname.length)
    (hufresh : db.users.find? (fun u => u.username == uname) = none)
    (hafresh : db.users.find? (fun u => u.ethAddress == some (lowerStr a1)) = none)
    (hsig : validSigFormat sig = true) :
    registerWallet db (some a1) (some sig) (some uname) now
      = (⟨201, registerWalletSuccessBody (mkWalletUser uname a1 db.nextId now)⟩,
         { db with users := db.users ++ [mkWalletUser uname a1 db.nextId now],
                   nextId := db.nextId + 1 }) ∧
    (mkWalletUser uname a1 db.nextId now).ethAddress = some (lowerStr a1) ∧
    (∀ a2 sig2 : String, isEthAddress a2 = true → lowerStr a2 = lowerStr a1 →
      validSigFormat sig2 = true →
      loginWallet (registerWallet db (some a1) (some sig) (some uname) now).2
          (some a2) (some sig2)
        = ⟨200, loginWalletSuccessBody (mkWalletUser uname a1 db.nextId now)⟩) ∧
    (∀ (a : String) (s u : Option String) (db2 : DB) (t : Nat), isEthAddress a = false →
      (registerWallet db2 (some a) s u t).1.status = 400 ∧
      (loginWallet db2 (some a) s).status = 400) := by
  have ha1ne : a1 ≠ "" := isEthAddress_ne_empty ha1
  have hsige : sig ≠ "" := validSigFormat_ne_empty hsig
  have hune : uname ≠ "" := by
    intro h
    rw [h] at hun
    simp [String.length] at hun
  have hlen : ¬ (uname.length < 3) := by omega
  have hreg : registerWallet db (some a1) (some sig) (some uname) now
      = (⟨201, registerWalletSuccessBody (mkWalletUser uname a1 db.nextId now)⟩,
         { db with users := db.users ++ [mkWalletUser uname a1 db.nextId now],
                   nextId := db.nextId + 1 }) := by
    simp [registerWallet, truthyS, ha1ne, hsige, hune, ha1, hlen, hufresh, hafresh, hsig]
  refine ⟨hreg, rfl, ?_, ?_⟩
  · intro a2 sig2 h2a h2eq h2sig
    have ha2ne : a2 ≠ "" := isEthAddress_ne_empty h2a
    have hs2ne : sig2 ≠ "" := validSigFormat_ne_empty h2sig
    rw [hreg]
    have hfind : (db.users ++ [mkWalletUser uname a1 db.nextId now]).find?
        (fun w => w.ethAddress == some (lowerStr a2))
        = some (mkWalletUser uname a1 db.nextId now) := by
      rw [h2eq, find?_append_of_none _ _ _ hafresh]
      simp [List.find?_cons, mkWalletUser]
    simp [loginWallet, truthyS, ha2ne, hs2ne, h2a, hfind, h2sig]
  · intro a s u db2 t hbad
    constructor
    · simp only [registerWallet]
      split
      · rfl
      · simp [hbad]
    · simp only [loginWallet]
      split
      · rfl
      · simp [hbad]

set_option maxRecDepth 8000 in
theorem C8_wallet_address_lowercase_roundtrip_witness :
    registerWallet DB.empty (some addrW) (some sigA) (some "dave") 4
      = (⟨201, registerWalletSuccessBody (mkWalletUser "dave" addrW DB.empty.nextId 4)⟩,
         { DB.empty with
             users := DB.empty.users ++ [mkWalletUser "dave" addrW DB.empty.nextId 4],
             nextId := DB.empty.nextId + 1 }) ∧
    (mkWalletUser "dave" addrW DB.empty.nextId 4).ethAddress = some (lowerStr addrW) ∧
    (∀ a2 sig2 : String, isEthAddress a2 = true → lowerStr a2 = lowerStr addrW →
      validSigFormat sig2 = true →
      loginWallet (registerWallet DB.empty (some addrW) (some sigA) (some "dave") 4).2
          (some a2) (some sig2)
        = ⟨200, loginWalletSuccessBody (mkWalletUser "dave" addrW DB.empty.nextId 4)⟩) ∧
    (∀ (a : String) (s u : Option String) (db2 : DB) (t : Nat), isEthAddress a = false →
      (registerWallet db2 (some a) s u t).1.status = 400 ∧
      (loginWallet db2 (some a) s).status = 400) :=
  C8_wallet_address_lowercase_roundtrip DB.empty addrW sigA "dave" 4
    (by decide) (by decide) rfl rfl (by decide)

/-- Every `POST /api/login` response is an error envelope (non-200) or a 200
with the `loginSuccessBody` user envelope. -/
theorem login_shape (db : DB) (x y : Option String) :
    (∃ m s, login db x y = ⟨s, errBody m⟩ ∧ s ≠ 200) ∨
    ∃ u, login db x y = ⟨200, loginSuccessBody u⟩ := by
  unfold login
  split
  · exact Or.inl ⟨_, 400, rfl, by decide⟩
  · split
    · exact Or.inl ⟨_, 401, rfl, by decide⟩
    · split
      · exact Or.inl ⟨_, 401, rfl, by decide⟩
      · exact Or.inr ⟨_, rfl⟩

/-- Every `POST /api/login-wallet` response is an error envelope (non-200) or
a 200 with the `loginWalletSuccessBody` user envelope. -/
theorem loginWallet_shape (db : DB) (x y : Option String) :
    (∃ m s, loginWallet db x y = ⟨s, errBody m⟩ ∧ s ≠ 200) ∨
    ∃ u, loginWallet db x y = ⟨200, loginWalletSuccessBody u⟩ := by
  unfold loginWallet
  split
  · exact Or.inl ⟨_, 400, rfl, by decide⟩
  · split
    · exact Or.inl ⟨_, 400, rfl, by decide⟩
    · split
      · exact Or.inl ⟨_, 404, rfl, by decide⟩
      · split
        · exact Or.inl ⟨_, 401, rfl, by decide⟩
        · exact Or.inr ⟨_, rfl⟩

/-- Every `POST /api/update-wallet` response is an error envelope (non-200) or
a 200 with the `updateWalletSuccessBody` user envelope. -/
theorem updateWallet_shape (db : DB) (x y : Option String) (now : Nat) :
    (∃ m s, (updateWallet db x y now).1 = ⟨s, errBody m⟩ ∧ s ≠ 200) ∨
    ∃ u, (updateWallet db x y now).1 = ⟨200, updateWalletSuccessBody u⟩ := by
  unfold updateWallet
  split
  · exact Or.inl ⟨_, 400, rfl, by decide⟩
  · split
    · exact Or.inl ⟨_, 400, rfl, by decide⟩
    · split
      · exact Or.inl ⟨_, 400, rfl, by decide⟩
      · split
        · exact Or.inl ⟨_, 409, rfl, by decide⟩
        · dsimp only
          split
          · exact Or.inl ⟨_, 404, rfl, by decide⟩
          · exact Or.inr ⟨_, rfl⟩

/-- Every `POST /api/signup` response is an error envelope (non-201) or a 201
with the `signupSuccessBody` user envelope. -/
theorem signup_shape (db : DB) (x y : Option String) (now : Nat) :
    (∃ m s, (signup db x y now).1 = ⟨s, errBody m⟩ ∧ s ≠ 201) ∨
    ∃ u, (signup db x y now).1 = ⟨201, signupSuccessBody u⟩ := by
  unfold signup
  split
  · exact Or.inl ⟨_, 400, rfl, by decide⟩
  · split
    · exact Or.inl ⟨_, 400, rfl, by decide⟩
    · split
      · exact Or.inl ⟨_, 409, rfl, by decide⟩
      · exact Or.inr ⟨_, rfl⟩

/-- C10: no success response carries the stored password: the user envelopes
returned by `POST /api/login`, `POST /api/login-wallet`,
`POST /api/update-wallet` and `POST /api/signup` contain only the keys id,
username, email, ethAddress (where applicable) and createdAt — never
password. -/
theorem C10_no_password_in_user_envelopes (db : DB) (x y : Option String) (now : Nat) :
    ((login db x y).status = 200 →
      userKeys (login db x y).body = ["id", "username", "email", "createdAt"]) ∧
    ((loginWallet db x y).status = 200 →
      userKeys (loginWallet db x y).body
        = ["id", "username", "email", "ethAddress", "createdAt"]) ∧
    ((updateWallet db x y now).1.status = 200 →
      userKeys (updateWallet db x y now).1.body
        = ["id", "username", "email", "ethAddress", "createdAt"]) ∧
    ((signup db x y now).1.status = 201 →
      userKeys (signup db x y now).1.body = ["id", "username", "email", "createdAt"]) ∧
    "password" ∉ userKeys (login db x y).body ∧
    "password" ∉ userKeys (loginWallet db x y).body ∧
    "password" ∉ userKeys (updateWallet db x y now).1.body ∧
    "password" ∉ userKeys (signup db x y now).1.body := by
  refine ⟨?_, ?_, ?_, ?_, ?_, ?_, ?_, ?_⟩
  · rcases login_shape db x y with ⟨m, s, he, hs⟩ | ⟨u, he⟩
    · intro h200
      rw [he] at h200
      exact absurd h200 hs
    · intro _
      rw [he]
      exact userKeys_loginSuccessBody u
  · rcases loginWallet_shape db x y with ⟨m, s, he, hs⟩ | ⟨u, he⟩
    · intro h200
      rw [he] at h200
      exact absurd h200 hs
    · intro _
      rw [he]
      exact userKeys_loginWalletSuccessBody u
  · rcases updateWallet_shape db x y now with ⟨m, s, he, hs⟩ | ⟨u, he⟩
    · intro h200
      rw [he] at h200
      exact absurd h200 hs
    · intro _
      rw [he]
      exact userKeys_updateWalletSuccessBody u
  · rcases signup_shape db x y now with ⟨m, s, he, hs⟩ | ⟨u, he⟩
    · intro h201
      rw [he] at h201
      exact absurd h201 hs
    · intro _
      rw [he]
      exact userKeys_signupSuccessBody u
  · rcases login_shape db x y with ⟨m, s, he, _⟩ | ⟨u, he⟩
    · rw [he]
      show "password" ∉ userKeys (errBody m)
      simp [userKeys_errBody]
    · rw [he]
      show "password" ∉ userKeys (loginSuccessBody u)
      rw [userKeys_loginSuccessBody]
      decide
  · rcases loginWallet_shape db x y with ⟨m, s, he, _⟩ | ⟨u, he⟩
    · rw [he]
      show "password" ∉ userKeys (errBody m)
      simp [userKeys_errBody]
    · rw [he]
      show "password" ∉ userKeys (loginWalletSuccessBody u)
      rw [userKeys_loginWalletSuccessBody]
      decide
  · rcases updateWallet_shape db x y now with ⟨m, s, he, _⟩ | ⟨u, he⟩
    · rw [he]
      show "password" ∉ userKeys (errBody m)
      simp [userKeys_errBody]
    · rw [he]
      show "password" ∉ userKeys (updateWalletSuccessBody u)
      rw [userKeys_updateWalletSuccessBody]
      decide
  · rcases signup_shape db x y now with ⟨m, s, he, _⟩ | ⟨u, he⟩
    · rw [he]
      show "password" ∉ userKeys (errBody m)
      simp [userKeys_errBody]
    · rw [he]
      show "password" ∉ userKeys (signupSuccessBody u)
      rw [userKeys_signupSuccessBody]
      decide
